import Mathlib

/-!
Verification of the dialogue-orchestration core of the Cora insurance advisor
(backend/agents). The definitions below are shallow embeddings of the Python
source: pure computation is translated directly, calls to the language model
are passed in as explicit outcome parameters (a successful text or parse
result, or a failure), and Python dictionaries become association lists.
-/

/-- JSON-like values stored in the user_info and policy_details dictionaries
of the communication agent state. -/
inductive JVal where
  | s (v : String)
  | i (v : Int)
  | b (v : Bool)
deriving DecidableEq, Repr

/-- Policies are Python dicts with string keys and string values; different
catalogue entries carry different keys, so an association list is used.
Source: backend/agents/policy_recommendation_agent.py lines 21-106. -/
def AVAILABLE_POLICIES : List (List (String × String)) := [
  [("name", "Term Life Insurance - 10 Years"), ("type", "Life"), ("sub_type", "Term"),
   ("policy_term", "10 years"), ("death_benefit", "$250,000"), ("maturity_benefit", "None"),
   ("premium", "$15/month"), ("payment_frequency", "Monthly"),
   ("additional_details", "For a 30-year-old non-smoker. 30-day grace period. 2-year contestability period.")],
  [("name", "Term Life Insurance - 20 Years"), ("type", "Life"), ("sub_type", "Term"),
   ("policy_term", "20 years"), ("death_benefit", "$500,000"), ("maturity_benefit", "None"),
   ("premium", "$25/month"), ("payment_frequency", "Monthly"),
   ("additional_details", "For a 30-year-old non-smoker. 30-day grace period. 2-year contestability period.")],
  [("name", "Whole Life Insurance"), ("type", "Life"), ("sub_type", "Whole"),
   ("policy_term", "Lifetime"), ("death_benefit", "$100,000"), ("maturity_benefit", "Cash value"),
   ("premium", "$150/month"), ("payment_frequency", "Monthly"),
   ("additional_details", "For a 30-year-old non-smoker. Builds cash value. 30-day grace period. 2-year contestability period.")],
  [("name", "Universal Life Insurance"), ("type", "Life"), ("sub_type", "Universal"),
   ("policy_term", "Lifetime"), ("death_benefit", "$200,000"), ("maturity_benefit", "Cash value"),
   ("premium", "$200/month"), ("payment_frequency", "Monthly"),
   ("additional_details", "For a 30-year-old non-smoker. Flexible premiums and death benefits. Cash value earns interest. 30-day grace period. 2-year contestability period.")],
  [("name", "HMO Health Insurance"), ("type", "Health"), ("sub_type", "HMO"),
   ("policy_term", "1 year, renewable"), ("coverage", "Medical expenses up to $20,000/year"),
   ("premium", "$150/month"), ("payment_frequency", "Monthly"),
   ("additional_details", "For a 30-year-old. Requires use of network providers. Low copays. 30-day grace period. Waiting period for pre-existing conditions: 12 months.")],
  [("name", "PPO Health Insurance"), ("type", "Health"), ("sub_type", "PPO"),
   ("policy_term", "1 year, renewable"), ("coverage", "Medical expenses up to $30,000/year"),
   ("premium", "$250/month"), ("payment_frequency", "Monthly"),
   ("additional_details", "For a 30-year-old. More provider choices. Higher copays. 30-day grace period. Waiting period for pre-existing conditions: 6 months.")],
  [("name", "HDHP with HSA"), ("type", "Health"), ("sub_type", "HDHP"),
   ("policy_term", "1 year, renewable"), ("coverage", "Medical expenses with $5,000 deductible, up to $50,000/year"),
   ("premium", "$100/month"), ("payment_frequency", "Monthly"),
   ("additional_details", "For a 30-year-old. Eligible for HSA. 30-day grace period. No waiting period for pre-existing conditions.")],
  [("name", "Critical Illness Insurance"), ("type", "Health"), ("sub_type", "Critical Illness"),
   ("policy_term", "10 years"), ("coverage", "Lump sum payout of $50,000 upon diagnosis of specified critical illnesses"),
   ("premium", "$50/month"), ("payment_frequency", "Monthly"),
   ("additional_details", "For a 30-year-old. 30-day grace period. Waiting period: 90 days from policy start.")]
]

/-- The name key of a catalogue entry, as read by the Python expression
p of key name (always present for every catalogue entry). -/
def policyNameOf (p : List (String × String)) : String :=
  (p.lookup "name").getD ""

/-- The membership test used by the validation step in recommend_policy:
any entry of AVAILABLE_POLICIES whose name equals the given name.
Source: policy_recommendation_agent.py line 260. -/
def isCataloguePolicyName (n : String) : Bool :=
  AVAILABLE_POLICIES.any (fun p => policyNameOf p == n)

/-- The recommended_policy object of a parsed model response.
Shape follows the JSON template in the prompt of recommend_policy. -/
structure RecommendedPolicy where
  name : String
  policy_type : String
  sub_type : String
  coverage_amount : String
  term_length : String
  premium : String
  recommended_riders : List String
deriving DecidableEq, Repr

/-- An alternative policy in a parsed model response (no riders field in the
JSON template). -/
structure AlternativePolicy where
  name : String
  policy_type : String
  sub_type : String
  coverage_amount : String
  term_length : String
  premium : String
deriving DecidableEq, Repr

/-- A full policy recommendation as parsed from the model response in
recommend_policy. -/
structure PolicyRec where
  recommended_policy : RecommendedPolicy
  alternative_policies : List AlternativePolicy
  explanation : String
  additional_notes : String
deriving DecidableEq, Repr

/-- The note attached when the model names a policy outside the catalogue.
Source: policy_recommendation_agent.py line 263. -/
def notFoundNote : String :=
  "The originally recommended policy was not found in the available policies. A default policy has been selected."

/-- The hard-coded fallback recommendation returned when the model response
cannot be parsed at all. Source: policy_recommendation_agent.py lines 276-298. -/
def default_recommendation : PolicyRec :=
  { recommended_policy :=
      { name := policyNameOf (AVAILABLE_POLICIES.getD 1 [])
        policy_type := "Life"
        sub_type := "Term"
        coverage_amount := "$500,000"
        term_length := "20 years"
        premium := "$25/month"
        recommended_riders := ["Accidental Death Benefit", "Disability Waiver of Premium"] }
    alternative_policies :=
      [{ name := policyNameOf (AVAILABLE_POLICIES.getD 2 [])
         policy_type := "Life"
         sub_type := "Whole"
         coverage_amount := "$100,000"
         term_length := "Lifetime"
         premium := "$150/month" }]
    explanation := "Unable to parse the policy recommendation. This is a default recommendation based on the most common policy choices."
    additional_notes := "Please consult with an insurance advisor for a more personalized recommendation." }

/-- The recommend_policy graph node of the Policy Recommender.
The model call and JSON extraction are summarised by the parsed argument:
some pr when a recommendation object was parsed from the response, none when
JSON extraction, parsing, or the key accesses inside the try block raise
(every exception lands in the except branch returning default_recommendation).
Source: policy_recommendation_agent.py lines 246-306. -/
def recommend_policy (parsed : Option PolicyRec) : PolicyRec :=
  match parsed with
  | some pr =>
      if isCataloguePolicyName pr.recommended_policy.name then pr
      else
        { pr with
          recommended_policy := { pr.recommended_policy with name := policyNameOf (AVAILABLE_POLICIES.headD []) }
          additional_notes := notFoundNote }
  | none => default_recommendation

/-- A risk assessment as produced by the Risk Scorer graph node (the parsed
JSON dict). Numeric scores are modelled as rationals. -/
structure RiskAssessmentResult where
  risk_score : Rat
  risk_factors : List String
  assessment : String
deriving DecidableEq, Repr

/-- The fixed fallback risk assessment returned when the model response cannot
be parsed. Source: backend/agents/risk_assesment_agent.py lines 116-128. -/
def risk_fallback : RiskAssessmentResult :=
  { risk_score := 50
    risk_factors := ["Unable to parse assessment"]
    assessment := "Unable to parse the risk assessment. Please try again." }

/-- The assess_risk graph node of the Risk Scorer: the parsed JSON or, when
parsing raises, the fixed fallback.
Source: risk_assesment_agent.py lines 104-128. -/
def assess_risk (parsed : Option RiskAssessmentResult) : RiskAssessmentResult :=
  match parsed with
  | some r => r
  | none => risk_fallback

/-- Premium breakdown record of a premium calculation. -/
structure PremiumBreakdown where
  base_premium : Rat
  risk_adjustment : Rat
  rider_costs : Rat
  other_fees : Rat
deriving DecidableEq, Repr

/-- A premium calculation as produced by the Premium Calculator graph node. -/
structure PremiumResult where
  annual_premium : Rat
  monthly_premium : Rat
  breakdown : PremiumBreakdown
  explanation : String
deriving DecidableEq, Repr

/-- The fixed fallback premium calculation returned when the model response
cannot be parsed. Source: backend/agents/premium_calculation_agent.py lines 127-139. -/
def premium_fallback : PremiumResult :=
  { annual_premium := 1000
    monthly_premium := (8333 : Rat) / 100
    breakdown := { base_premium := 800, risk_adjustment := 150, rider_costs := 50, other_fees := 0 }
    explanation := "Unable to parse the premium calculation. This is a default calculation." }

/-- The calculate_premium graph node of the Premium Calculator: the parsed
JSON or, when parsing raises, the fixed fallback.
Source: premium_calculation_agent.py lines 115-147. -/
def calculate_premium (parsed : Option PremiumResult) : PremiumResult :=
  match parsed with
  | some p => p
  | none => premium_fallback

/-- Per-user risk history update performed by RiskAssessmentAgent.invoke:
a plain append with no cap. Source: risk_assesment_agent.py lines 168-171. -/
def appendRiskHistory (hist : List RiskAssessmentResult) (r : RiskAssessmentResult) :
    List RiskAssessmentResult :=
  hist ++ [r]

/-- Per-user premium history update performed by PremiumCalculationAgent.invoke:
a plain append with no cap. Source: premium_calculation_agent.py lines 189-192. -/
def appendPremiumHistory (hist : List PremiumResult) (p : PremiumResult) :
    List PremiumResult :=
  hist ++ [p]

/-- Per-user recommendation history update performed by
PolicyRecommendationAgent._update_user_history: append, then keep only the
last 5 entries when the list exceeds 5.
Source: policy_recommendation_agent.py lines 344-365. -/
def updateRecommendationHistory (hist : List PolicyRec) (rec : PolicyRec) :
    List PolicyRec :=
  let h := hist ++ [rec]
  if h.length > 5 then h.drop (h.length - 5) else h

/-- A parsed recommendation whose recommended name is not in the catalogue,
used to exercise the validation branch. -/
def inventedRec : PolicyRec :=
  { recommended_policy :=
      { name := "Platinum Unicorn Shield"
        policy_type := "Life"
        sub_type := "Term"
        coverage_amount := "$750,000"
        term_length := "15 years"
        premium := "$42/month"
        recommended_riders := ["Accidental Death Benefit"] }
    alternative_policies :=
      [{ name := "Whole Life Insurance"
         policy_type := "Life"
         sub_type := "Whole"
         coverage_amount := "$100,000"
         term_length := "Lifetime"
         premium := "$150/month" }]
    explanation := "The model liked this invented product."
    additional_notes := "original note" }

/-- Chat messages of the conversation state, tagged by role as in langchain
HumanMessage / AIMessage / SystemMessage. -/
inductive Msg where
  | humanMsg (content : String)
  | aiMsg (content : String)
  | systemMsg (content : String)
deriving DecidableEq, Repr

/-- Conversation stages of the communication agent.
Source: backend/agents/communication_agent.py line 31. -/
inductive Stage where
  | greeting
  | collecting_info
  | policy_selection
  | recommendation
  | followup
  | completed
deriving DecidableEq, Repr

/-- The recommendation_result composite assembled by the recommendation
handler from the three collaborators. -/
structure RecommendationBundle where
  risk_assessment : RiskAssessmentResult
  premium_calculation : PremiumResult
  policy_recommendation : PolicyRec
deriving DecidableEq, Repr

/-- CommunicationState of the communication agent.
Source: communication_agent.py lines 25-32. -/
structure CommState where
  messages : List Msg
  user_info : List (String × JVal)
  policy_details : List (String × JVal)
  recommendation_result : Option RecommendationBundle
  conversation_stage : Stage
  step_count : Nat
deriving DecidableEq, Repr

/-- Test for all four required profile keys, as in the Python expression
all over the keys age, gender, smoking, health. -/
def hasBasicInfo (ui : List (String × JVal)) : Bool :=
  ["age", "gender", "smoking", "health"].all (fun k => (ui.lookup k).isSome)

/-- Test for both required policy keys policy_type and coverage_amount. -/
def hasPolicyInfo (pd : List (String × JVal)) : Bool :=
  (pd.lookup "policy_type").isSome && (pd.lookup "coverage_amount").isSome

/-- Content of the latest user (human) message, scanning from the end as the
Python router does. -/
def lastHumanContent (ms : List Msg) : Option String :=
  ms.reverse.findSome? (fun m =>
    match m with
    | Msg.humanMsg c => some c
    | _ => none)

/-- Content of the latest assistant message, scanning from the end as invoke
does when assembling the reply. -/
def lastAIContent (ms : List Msg) : Option String :=
  ms.reverse.findSome? (fun m =>
    match m with
    | Msg.aiMsg c => some c
    | _ => none)

/-- ASCII whitespace strip from both ends, modelling str.strip. -/
def trimChars (cs : List Char) : List Char :=
  ((cs.dropWhile Char.isWhitespace).reverse.dropWhile Char.isWhitespace).reverse

/-- Lowercase and strip a message, modelling content.lower().strip() on the
ASCII texts that occur here. -/
def lowerStripChars (s : String) : List Char :=
  trimChars (s.toList.map Char.toLower)

/-- Substring test, modelling the Python expression phrase in message. -/
def containsSub (needle : List Char) : List Char → Bool
  | [] => needle.isEmpty
  | c :: t => needle.isPrefixOf (c :: t) || containsSub needle t

/-- The recommendation-request keyword list of the router.
Source: communication_agent.py lines 884-888. -/
def recommendationPhrases : List String :=
  ["suggest", "recommend", "suggest a plan", "recommend a plan",
   "okay now suggest me a proper plan which i should go with.",
   "please suggest a suitable plan for me.",
   "what plan should i go with",
   "which plan is best for me"]

/-- The recommendation-request test of the router: the lowercased, stripped
latest user message is nonempty and contains one of the keywords.
Source: communication_agent.py lines 876-890. -/
def isRecommendationRequest (ms : List Msg) : Bool :=
  match lastHumanContent ms with
  | none => false
  | some c =>
      let m := lowerStripChars c
      if m.isEmpty then false
      else recommendationPhrases.any (fun p => containsSub p.toList m)

/-- Routing decision: continue at a stage node, or end the graph run (the
Python router returns the langgraph END sentinel). -/
inductive Route where
  | stage (s : Stage)
  | endRun
deriving DecidableEq, Repr

/-- The trailing routing logic of the router (lines 947-985), reached when no
earlier rule fired; also reached from the loop-escape block when the current
stage is completed, because that block has no branch for completed and Python
falls through. -/
def normalRoute (st : CommState) : Route :=
  match st.conversation_stage with
  | Stage.greeting =>
      if hasBasicInfo st.user_info then Route.stage Stage.policy_selection
      else Route.stage Stage.collecting_info
  | Stage.collecting_info =>
      if hasBasicInfo st.user_info then Route.stage Stage.policy_selection
      else Route.stage Stage.collecting_info
  | Stage.policy_selection =>
      if hasPolicyInfo st.policy_details then Route.stage Stage.recommendation
      else Route.stage Stage.policy_selection
  | Stage.recommendation => Route.stage Stage.followup
  | Stage.followup =>
      if isRecommendationRequest st.messages then Route.stage Stage.recommendation
      else Route.stage Stage.followup
  | Stage.completed =>
      if hasBasicInfo st.user_info && hasPolicyInfo st.policy_details then Route.stage Stage.followup
      else Route.endRun

/-- The router of the communication agent.
Source: communication_agent.py lines 856-985. The first check ends the run
when step_count exceeds 20; the step_count at most 1 block picks a starting
stage; then the explicit recommendation-request overrides; then the
loop-escape block for transcripts longer than 10 messages; then normalRoute. -/
def router (st : CommState) : Route :=
  if st.step_count > 20 then Route.endRun
  else
    let hasB := hasBasicInfo st.user_info
    let hasP := hasPolicyInfo st.policy_details
    let isRec := isRecommendationRequest st.messages
    if st.step_count ≤ 1 then
      if hasB && hasP then Route.stage Stage.recommendation
      else if hasB then Route.stage Stage.policy_selection
      else if st.conversation_stage = Stage.greeting then Route.stage Stage.greeting
      else Route.stage Stage.collecting_info
    else if isRec && hasB && hasP then Route.stage Stage.recommendation
    else if isRec && hasB && !hasP then Route.stage Stage.policy_selection
    else if st.messages.length > 10 then
      match st.conversation_stage with
      | Stage.greeting =>
          if hasB then Route.stage Stage.policy_selection else Route.stage Stage.collecting_info
      | Stage.collecting_info =>
          if hasB then Route.stage Stage.policy_selection else Route.stage Stage.collecting_info
      | Stage.policy_selection =>
          if hasP then Route.stage Stage.recommendation else Route.stage Stage.policy_selection
      | Stage.recommendation => Route.stage Stage.followup
      | Stage.followup => Route.stage Stage.completed
      | Stage.completed => normalRoute st
    else normalRoute st

/-- The recommendation handler get_recommendation. The chained collaborator
call (risk, premium, recommendation) and the formatting model call live in
one try block, summarised by the chain argument; on any exception the except
branch emits the apologetic fallback text, clears recommendation_result, and
keeps the stage the state already carried.
Source: communication_agent.py lines 632-772. -/
def get_recommendation (st : CommState) (chain : Except Unit RecommendationBundle)
    (fmtText apologyText : String) : CommState :=
  match chain with
  | Except.ok rr =>
      { st with
        messages := st.messages ++ [Msg.aiMsg fmtText]
        recommendation_result := some rr
        conversation_stage := Stage.followup
        step_count := st.step_count + 1 }
  | Except.error _ =>
      { st with
        messages := st.messages ++ [Msg.aiMsg apologyText]
        recommendation_result := none
        conversation_stage := st.conversation_stage
        step_count := st.step_count + 1 }

/-- Outcome of the JSON extraction over the model response in the
policy_selection handler: a parsed dict, no JSON block found (the update is
skipped, control continues), or a raised parse error (the except branch). -/
inductive ExtractOutcome where
  | parsed (kvs : List (String × JVal))
  | noMatch
  | parseError
deriving DecidableEq, Repr

/-- Python dict assignment on an association list: replace an existing key in
place, else append. -/
def setKey (pd : List (String × JVal)) (k : String) (v : JVal) : List (String × JVal) :=
  if (pd.lookup k).isSome then pd.map (fun kv => if kv.1 == k then (k, v) else kv)
  else pd ++ [(k, v)]

/-- The update loop of the policy_selection handler: copy extracted entries
whose key is one of the four allowed policy keys.
Source: communication_agent.py lines 593-596. -/
def updatePolicyDetails (pd : List (String × JVal)) (kvs : List (String × JVal)) :
    List (String × JVal) :=
  kvs.foldl
    (fun acc kv =>
      if ["policy_type", "coverage_amount", "term_length", "sub_type"].contains kv.1 then
        setKey acc kv.1 kv.2
      else acc)
    pd

/-- The policy_selection handler. The model call and the regex/JSON
extraction over its response are summarised by the ext argument; the handler
then decides the next stage from the (possibly updated) policy_details, or
stays in policy_selection when extraction raised.
Source: communication_agent.py lines 441-630. -/
def policy_selection (st : CommState) (resp : String) (ext : ExtractOutcome) : CommState :=
  match ext with
  | ExtractOutcome.parsed kvs =>
      let pd := updatePolicyDetails st.policy_details kvs
      { st with
        messages := st.messages ++ [Msg.aiMsg resp]
        policy_details := pd
        conversation_stage :=
          if hasPolicyInfo pd then Stage.recommendation else Stage.policy_selection
        step_count := st.step_count + 1 }
  | ExtractOutcome.noMatch =>
      { st with
        messages := st.messages ++ [Msg.aiMsg resp]
        conversation_stage :=
          if hasPolicyInfo st.policy_details then Stage.recommendation else Stage.policy_selection
        step_count := st.step_count + 1 }
  | ExtractOutcome.parseError =>
      { st with
        messages := st.messages ++ [Msg.aiMsg resp]
        conversation_stage := Stage.policy_selection
        step_count := st.step_count + 1 }

/-- Digit-string to number, modelling int() on a digit group. -/
def digitsToNat (ds : List Char) : Nat :=
  ds.foldl (fun a c => a * 10 + (c.toNat - 48)) 0

/-- Try to match digits, optional whitespace, then the literal, at the start
of the text; returns the digit group. This realises the regex fragment of the
form digits, whitespace star, literal, where backtracking inside the digit
group can never help because the literals start with a letter. -/
def matchNumLitAt (lit : List Char) (cs : List Char) : Option (List Char) :=
  let ds := cs.takeWhile Char.isDigit
  if ds.isEmpty then none
  else
    let rest := (cs.drop ds.length).dropWhile Char.isWhitespace
    if lit.isPrefixOf rest then some ds else none

/-- Leftmost search for the pattern of matchNumLitAt, trying every start
position as re.search does. -/
def searchNumLit (lit : List Char) : List Char → Option (List Char)
  | [] => none
  | c :: cs =>
      match matchNumLitAt lit (c :: cs) with
      | some ds => some ds
      | none => searchNumLit lit cs

/-- Try to match digits, comma, digits, comma, digits at the start of the
text, returning the first digit group, as the grouped comma regex does. -/
def matchCommasAt (cs : List Char) : Option (List Char) :=
  let d1 := cs.takeWhile Char.isDigit
  if d1.isEmpty then none
  else
    match cs.drop d1.length with
    | ',' :: r1 =>
        let d2 := r1.takeWhile Char.isDigit
        if d2.isEmpty then none
        else
          match r1.drop d2.length with
          | ',' :: r2 => if (r2.takeWhile Char.isDigit).isEmpty then none else some d1
          | _ => none
    | _ => none

/-- Leftmost search for the comma-grouped number pattern. -/
def searchCommas : List Char → Option (List Char)
  | [] => none
  | c :: cs =>
      match matchCommasAt (c :: cs) with
      | some ds => some ds
      | none => searchCommas cs

/-- The four coverage regex patterns of collect_info, in source order.
Source: communication_agent.py lines 368-373. -/
inductive CovPattern where
  | lakh
  | commas
  | million
  | crore
deriving DecidableEq, Repr

/-- Pattern list in the order the Python list literal gives. -/
def coveragePatterns : List CovPattern :=
  [CovPattern.lakh, CovPattern.commas, CovPattern.million, CovPattern.crore]

/-- Search one coverage pattern in the lowercased message. -/
def searchCovPattern : CovPattern → List Char → Option (List Char)
  | CovPattern.lakh, cs => searchNumLit "lakh".toList cs
  | CovPattern.commas, cs => searchCommas cs
  | CovPattern.million, cs => searchNumLit "million".toList cs
  | CovPattern.crore, cs => searchNumLit "crore".toList cs

/-- The unit normalization applied to a matched digit group: the branch is
chosen by substring containment over the whole lowercased message, exactly as
the Python conditional chain checks lakh, then crore, then million; otherwise
the digit group itself is used (comma removal on the first group is a no-op
because the group is pure digits).
Source: communication_agent.py lines 378-390. -/
def coverageValueFor (ds : List Char) (messageLower : List Char) : Int :=
  if containsSub "lakh".toList messageLower then (digitsToNat ds : Int) * 100000
  else if containsSub "crore".toList messageLower then (digitsToNat ds : Int) * 10000000
  else if containsSub "million".toList messageLower then (digitsToNat ds : Int) * 1000000
  else (digitsToNat ds : Int)

/-- The coverage-amount extraction block of collect_info: skipped when a
coverage_amount is already present; otherwise every pattern of
coveragePatterns is searched in order and each match assigns the key, so the
last matching pattern wins (the Python for loop has no break).
Source: communication_agent.py lines 365-390. -/
def extractCoverageAmount (pd : List (String × JVal)) (messageLower : List Char) :
    List (String × JVal) :=
  if (pd.lookup "coverage_amount").isSome then pd
  else
    coveragePatterns.foldl
      (fun acc pat =>
        match searchCovPattern pat messageLower with
        | some ds => setKey acc "coverage_amount" (JVal.i (coverageValueFor ds messageLower))
        | none => acc)
      pd

/-- The response object invoke hands back to the HTTP layer: a reply text and
the current conversation stage. -/
structure InvokeResponse where
  response : String
  conversation_stage : Stage
deriving DecidableEq, Repr

/-- The exception text of the slip in the step-zero greeting path: the except
handler prints str of the name e, which is unbound at that point, so the
handler itself raises and nothing catches it.
Source: communication_agent.py line 1436. -/
def unboundLocalErrorText : String :=
  "UnboundLocalError: local variable e referenced before assignment"

/-- Fallback reply used when the graph result contains no assistant message
(contractions of the source literal are elided). Source: line 1467. -/
def cannotProcessText : String :=
  "Sorry, could not process your request. Please try again."

/-- The optional name fragment prefixed to the default fallback replies. -/
def namePart (ui : List (String × JVal)) : String :=
  match ui.lookup "name" with
  | some (JVal.s n) => " " ++ n
  | some _ => " "
  | none => ""

/-- Required profile fields still missing, in the fixed order the Python list
comprehension uses. -/
def missingBasicFields (ui : List (String × JVal)) : List String :=
  ["age", "gender", "smoking", "health"].filter (fun k => (ui.lookup k).isNone)

/-- Default fallback reply of invoke when basic info is complete
(contractions of the source literal are elided). Source: lines 1518-1522. -/
def fallbackPolicySelectionText (ui : List (String × JVal)) : String :=
  "Hello" ++ namePart ui ++ "! I see I already have your basic information. Could you tell me what type of life insurance policy you are interested in and what coverage amount you are looking for?"

/-- Default fallback reply of invoke when basic info is missing
(contractions of the source literal are elided). Source: lines 1523-1528. -/
def fallbackCollectingText (ui : List (String × JVal)) : String :=
  "Hello" ++ namePart ui ++ "! I am your friendly insurance advisor. I can help you find the right life insurance policy for your needs. I still need some information from you: " ++ String.intercalate ", " (missingBasicFields ui) ++ ". This will help me provide personalized recommendations."

/-- The guarded graph-run-and-recover part of invoke: run the graph; on
success answer with the last assistant message and the resulting stage; on
any exception try the contextual recovery model call; if that also fails,
answer with the hard-coded fallback texts. Every branch returns a response.
Source: communication_agent.py lines 1438-1528. -/
def graphPath (st : CommState) (graphRun : Except Unit CommState)
    (contextualMsg : Except Unit String) : Except String InvokeResponse :=
  match graphRun with
  | Except.ok result =>
      match lastAIContent result.messages with
      | some c => Except.ok { response := c, conversation_stage := result.conversation_stage }
      | none => Except.ok { response := cannotProcessText, conversation_stage := result.conversation_stage }
  | Except.error _ =>
      match contextualMsg with
      | Except.ok m => Except.ok { response := m, conversation_stage := st.conversation_stage }
      | Except.error _ =>
          if hasBasicInfo st.user_info then
            Except.ok
              { response := fallbackPolicySelectionText st.user_info
                conversation_stage := Stage.policy_selection }
          else
            Except.ok
              { response := fallbackCollectingText st.user_info
                conversation_stage := Stage.collecting_info }

/-- The error-handling skeleton of CommunicationAgent.invoke for one turn,
with the three model interactions passed in as outcomes: the detailed
step-zero greeting, the graph run, and the contextual recovery message.
When step_count is zero and the profile is complete, the greeting path runs
before the try block; if the greeting model call raises, its except handler
evaluates str of the unbound name e and raises in turn, and that exception
propagates to the caller (the Except.error result). All other paths return a
response object. Source: communication_agent.py lines 1327-1528. -/
def invoke_model (st : CommState) (detailedGreeting : Except Unit String)
    (graphRun : Except Unit CommState) (contextualMsg : Except Unit String) :
    Except String InvokeResponse :=
  if st.step_count == 0 && hasBasicInfo st.user_info then
    match detailedGreeting with
    | Except.ok g =>
        Except.ok
          { response := g
            conversation_stage :=
              if hasPolicyInfo st.policy_details then Stage.recommendation
              else Stage.policy_selection }
    | Except.error _ => Except.error unboundLocalErrorText
  else graphPath st graphRun contextualMsg

/-- A complete basic profile (all four required keys present). -/
def basicUI : List (String × JVal) :=
  [("age", JVal.i 35), ("gender", JVal.s "male"), ("smoking", JVal.s "no"),
   ("health", JVal.s "No significant health issues reported")]

/-- Complete policy preferences (both required keys present). -/
def fullPD : List (String × JVal) :=
  [("policy_type", JVal.s "Term Life"), ("coverage_amount", JVal.i 500000)]

/-- A conversation stuck in policy_selection for 11 messages with the
coverage amount still missing and no recommendation request in the latest
user message. -/
def c5State : CommState :=
  { messages :=
      [Msg.systemMsg "sys", Msg.humanMsg "hi", Msg.aiMsg "a1", Msg.humanMsg "i am 35",
       Msg.aiMsg "a2", Msg.humanMsg "male", Msg.aiMsg "a3", Msg.humanMsg "i do not smoke",
       Msg.aiMsg "a4", Msg.humanMsg "ok", Msg.aiMsg "a5"]
    user_info := basicUI
    policy_details := [("policy_type", JVal.s "Term Life")]
    recommendation_result := none
    conversation_stage := Stage.policy_selection
    step_count := 11 }

/-- A state whose step counter has passed 50 (and hence also 20). -/
def c2State : CommState :=
  { messages := [Msg.humanMsg "hello"]
    user_info := []
    policy_details := []
    recommendation_result := none
    conversation_stage := Stage.followup
    step_count := 51 }

/-- The same conversation at step 21: above the real ceiling of 20 but still
below the claimed ceiling of 50. -/
def c2StateB : CommState :=
  { c2State with step_count := 21 }

/-- A state inside the recommendation handler (the stage field carries
recommendation when the routing came from a policy_selection handler that saw
complete preferences). -/
def c3State : CommState :=
  { messages := [Msg.humanMsg "please suggest a suitable plan for me."]
    user_info := basicUI
    policy_details := fullPD
    recommendation_result := none
    conversation_stage := Stage.recommendation
    step_count := 4 }

/-- A policy_selection turn whose latest user message is the bare affirmative
yes while both preference keys are still missing. -/
def c6State : CommState :=
  { messages := [Msg.humanMsg "hi", Msg.aiMsg "which policy type would you like", Msg.humanMsg "yes"]
    user_info := basicUI
    policy_details := []
    recommendation_result := none
    conversation_stage := Stage.policy_selection
    step_count := 4 }

/-- A first-contact state (step zero) with a fully seeded profile, the input
on which the step-zero greeting path of invoke runs. -/
def c8FailingState : CommState :=
  { messages := [Msg.humanMsg "hello"]
    user_info := basicUI
    policy_details := []
    recommendation_result := none
    conversation_stage := Stage.policy_selection
    step_count := 0 }

/-- The per-user risk history after n invocations of the Risk Scorer
(each one appends its result). -/
def riskHistoryAfter (n : Nat) : List RiskAssessmentResult :=
  (List.range n).foldl (fun h _ => appendRiskHistory h risk_fallback) []

/-- The fields of a recommendation other than the recommended name and the
top-level notes, stated pairwise equal between parsed input and output. -/
def frameUnchanged (pr r : PolicyRec) : Prop :=
  r.recommended_policy.policy_type = pr.recommended_policy.policy_type ∧
  r.recommended_policy.sub_type = pr.recommended_policy.sub_type ∧
  r.recommended_policy.coverage_amount = pr.recommended_policy.coverage_amount ∧
  r.recommended_policy.term_length = pr.recommended_policy.term_length ∧
  r.recommended_policy.premium = pr.recommended_policy.premium ∧
  r.recommended_policy.recommended_riders = pr.recommended_policy.recommended_riders ∧
  r.alternative_policies = pr.alternative_policies ∧
  r.explanation = pr.explanation

/-- Claim C1: every output of recommend_policy, parsed or fallback, carries a
recommended name drawn from the fixed 8-entry catalogue, and a name the model
invented (not in the catalogue) is replaced by the name of the first
catalogue entry before the result is returned. -/
theorem C1_catalogue_closure :
    AVAILABLE_POLICIES.length = 8 ∧
    (∀ parsed : Option PolicyRec,
       isCataloguePolicyName (recommend_policy parsed).recommended_policy.name = true) ∧
    (∀ pr : PolicyRec, isCataloguePolicyName pr.recommended_policy.name = false →
       (recommend_policy (some pr)).recommended_policy.name =
         policyNameOf (AVAILABLE_POLICIES.headD [])) := by
  refine ⟨rfl, ?_, ?_⟩
  · intro parsed
    cases parsed with
    | none => decide
    | some pr =>
        by_cases h : isCataloguePolicyName pr.recommended_policy.name = true
        · simp [recommend_policy, h]
        · have h' : isCataloguePolicyName pr.recommended_policy.name = false := by
            simpa using h
          simp only [recommend_policy, h', Bool.false_eq_true, if_false]
          decide
  · intro pr h
    simp [recommend_policy, h]

/-- Witness for C1 at a parsed recommendation with an invented name. -/
theorem C1_catalogue_closure_witness :
    isCataloguePolicyName inventedRec.recommended_policy.name = false ∧
    (recommend_policy (some inventedRec)).recommended_policy.name =
      policyNameOf (AVAILABLE_POLICIES.headD []) :=
  ⟨by decide, C1_catalogue_closure.2.2 inventedRec (by decide)⟩

/-- Claim C2 counterexample: at stepCount 51 the router ends the run without
transitioning the stage to completed, and already at stepCount 21 (within the
claimed ceiling of 50) the router ends the run: the real ceiling is 20. -/
theorem C2_counterexample :
    c2State.step_count > 50 ∧ router c2State ≠ Route.stage Stage.completed ∧
    c2StateB.step_count ≤ 50 ∧ router c2StateB = Route.endRun := by decide

/-- Claim C2 (amended): once stepCount exceeds the fixed ceiling of 20, the
router ends the graph run (the langgraph END sentinel) regardless of all
other conditions; the conversation stage field is not set to completed by
this rule. -/
theorem C2_hard_stop_amended (st : CommState) (h : st.step_count > 20) :
    router st = Route.endRun := by
  simp [router, h]

/-- Witness for the amended C2 at a concrete state with stepCount 51. -/
theorem C2_hard_stop_amended_witness :
    c2State.step_count > 20 ∧ router c2State = Route.endRun :=
  ⟨by decide, C2_hard_stop_amended c2State (by decide)⟩

/-- Claim C3 counterexample: when the collaborator chain fails inside the
recommendation handler, the returned stage is the stage the state already
carried (recommendation here), not policy_selection. -/
theorem C3_counterexample :
    (get_recommendation c3State (Except.error ()) "formatted" "apology").conversation_stage
      = Stage.recommendation ∧
    Stage.recommendation ≠ Stage.policy_selection := by decide

/-- Claim C3 (amended): on any collaborator failure the recommendation
handler emits exactly one apologetic message, clears recommendation_result,
leaves the conversation stage unchanged (not reset to policy_selection), and
performs no retry within the turn (the chain is consulted once and the
handler returns). -/
theorem C3_failure_keeps_stage_amended (st : CommState) (fmtText apologyText : String) :
    (get_recommendation st (Except.error ()) fmtText apologyText).conversation_stage
      = st.conversation_stage ∧
    (get_recommendation st (Except.error ()) fmtText apologyText).recommendation_result = none ∧
    (get_recommendation st (Except.error ()) fmtText apologyText).messages
      = st.messages ++ [Msg.aiMsg apologyText] ∧
    (get_recommendation st (Except.error ()) fmtText apologyText).step_count
      = st.step_count + 1 :=
  ⟨rfl, rfl, rfl, rfl⟩

/-- Claim C4 counterexample: the Risk Scorer fallback risk factor list is not
the claimed singleton containing the string unable to parse. -/
theorem C4_counterexample :
    (assess_risk none).risk_factors ≠ ["unable to parse"] := by decide

/-- Claim C4 (amended): on unparsable model output the Risk Scorer returns
exactly riskScore 50 with the single factor Unable to parse assessment, and
the Premium Calculator returns exactly annual premium 1000 and monthly
premium 83.33. -/
theorem C4_fallback_values_amended :
    (assess_risk none).risk_score = 50 ∧
    (assess_risk none).risk_factors = ["Unable to parse assessment"] ∧
    (assess_risk none).assessment = "Unable to parse the risk assessment. Please try again." ∧
    (calculate_premium none).annual_premium = 1000 ∧
    (calculate_premium none).monthly_premium = (8333 : Rat) / 100 :=
  ⟨rfl, rfl, rfl, rfl, rfl⟩

/-- Claim C5 counterexample: with 11 messages stuck in policy_selection and
coverage_amount still missing, the router stays in policy_selection instead
of force-advancing to recommendation. -/
theorem C5_counterexample :
    c5State.messages.length > 10 ∧
    c5State.conversation_stage = Stage.policy_selection ∧
    hasPolicyInfo c5State.policy_details = false ∧
    router c5State ≠ Route.stage Stage.recommendation ∧
    router c5State = Route.stage Stage.policy_selection := by decide

/-- Claim C5 (amended): when the transcript exceeds 10 messages (and no
earlier routing rule fires), the router force-advances only the stages whose
work is done: recommendation moves to followup and followup to completed
unconditionally, while collecting_info and policy_selection advance only
when their completion predicate holds and otherwise re-enter the same
stage. -/
theorem C5_loop_escape_amended (st : CommState)
    (h1 : ¬ st.step_count > 20) (h2 : ¬ st.step_count ≤ 1)
    (h3 : isRecommendationRequest st.messages = false)
    (h4 : st.messages.length > 10) :
    (st.conversation_stage = Stage.collecting_info → hasBasicInfo st.user_info = false →
       router st = Route.stage Stage.collecting_info) ∧
    (st.conversation_stage = Stage.policy_selection → hasPolicyInfo st.policy_details = false →
       router st = Route.stage Stage.policy_selection) ∧
    (st.conversation_stage = Stage.recommendation → router st = Route.stage Stage.followup) ∧
    (st.conversation_stage = Stage.followup → router st = Route.stage Stage.completed) := by
  refine ⟨?_, ?_, ?_, ?_⟩
  · intro hs hb
    simp [router, h1, h2, h3, h4, hs, hb]
  · intro hs hp
    simp [router, h1, h2, h3, h4, hs, hp]
  · intro hs
    simp [router, h1, h2, h3, h4, hs]
  · intro hs
    simp [router, h1, h2, h3, h4, hs]

/-- Witness for the amended C5 at the concrete stuck conversation. -/
theorem C5_loop_escape_amended_witness :
    c5State.messages.length > 10 ∧ hasPolicyInfo c5State.policy_details = false ∧
    router c5State = Route.stage Stage.policy_selection :=
  ⟨by decide, by decide,
   (C5_loop_escape_amended c5State (by decide) (by decide) (by decide) (by decide)).2.1
     rfl (by decide)⟩

/-- Claim C6 counterexample: in policy_selection with both preference keys
missing and the bare affirmative yes as the latest user message, the handler
(here with a model response carrying no extractable JSON) sets no default
preference at all: policy_type, coverage_amount and term_length all remain
absent, and the turn stays in policy_selection. -/
theorem C6_counterexample :
    lastHumanContent c6State.messages = some "yes" ∧
    hasPolicyInfo c6State.policy_details = false ∧
    (policy_selection c6State "could you tell me more" ExtractOutcome.noMatch).policy_details.lookup "policy_type" = none ∧
    (policy_selection c6State "could you tell me more" ExtractOutcome.noMatch).policy_details.lookup "coverage_amount" = none ∧
    (policy_selection c6State "could you tell me more" ExtractOutcome.noMatch).policy_details.lookup "term_length" = none ∧
    (policy_selection c6State "could you tell me more" ExtractOutcome.noMatch).conversation_stage = Stage.policy_selection := by decide

/-- Claim C6 (amended): the policy_selection handler contains no
affirmative-detection and no default-preference injection; whatever the user
message says, when the extraction over the model response yields nothing the
policy details are returned unchanged (and the turn re-enters
policy_selection whenever they are incomplete), and when extraction raises
the details are likewise unchanged and the stage stays policy_selection. -/
theorem C6_no_default_injection_amended (st : CommState) (resp : String) :
    (policy_selection st resp ExtractOutcome.noMatch).policy_details = st.policy_details ∧
    (policy_selection st resp ExtractOutcome.noMatch).conversation_stage =
      (if hasPolicyInfo st.policy_details then Stage.recommendation else Stage.policy_selection) ∧
    (policy_selection st resp ExtractOutcome.parseError).policy_details = st.policy_details ∧
    (policy_selection st resp ExtractOutcome.parseError).conversation_stage = Stage.policy_selection :=
  ⟨rfl, rfl, rfl, rfl⟩

/-- Claim C7: the coverage extraction of collect_info normalizes unit
suffixes: 30 lakh yields 3000000, 2 crore yields 20000000, and 5 million
yields 5000000, when no coverage_amount is present yet. -/
theorem C7_unit_normalization :
    (extractCoverageAmount [] "30 lakh".toList).lookup "coverage_amount" = some (JVal.i 3000000) ∧
    (extractCoverageAmount [] "2 crore".toList).lookup "coverage_amount" = some (JVal.i 20000000) ∧
    (extractCoverageAmount [] "5 million".toList).lookup "coverage_amount" = some (JVal.i 5000000) := by
  refine ⟨by decide, by decide, by decide⟩

/-- Claim C8 (code bug): on the failing input (a first-contact turn whose
seeded profile already has age, gender, smoking and health, with the greeting
model call failing) invoke propagates an exception to its caller, because the
except handler of the greeting path evaluates the unbound name e; on every
input outside that configuration, invoke returns a response object. -/
theorem C8_invoke_exception_bug :
    invoke_model c8FailingState (Except.error ()) (Except.error ()) (Except.error ())
      = Except.error unboundLocalErrorText ∧
    (∀ (st : CommState) (dg : Except Unit String) (gr : Except Unit CommState)
       (cm : Except Unit String),
       (invoke_model st dg gr cm).isOk = true ∨
       (st.step_count = 0 ∧ hasBasicInfo st.user_info = true ∧ dg = Except.error ())) := by
  constructor
  · rfl
  · intro st dg gr cm
    unfold invoke_model
    by_cases hc : (st.step_count == 0 && hasBasicInfo st.user_info) = true
    · rw [if_pos hc]
      cases dg with
      | ok g => exact Or.inl rfl
      | error u =>
          simp only [Bool.and_eq_true, beq_iff_eq] at hc
          exact Or.inr ⟨hc.1, hc.2, by cases u; rfl⟩
    · rw [if_neg hc]
      left
      unfold graphPath
      cases gr with
      | ok r => cases h : lastAIContent r.messages <;> simp [h, Except.isOk, Except.toBool]
      | error u =>
          cases cm with
          | ok m => rfl
          | error v => by_cases hb : hasBasicInfo st.user_info <;> simp [hb, Except.isOk, Except.toBool]

/-- Claim C9 counterexample: after 6 invocations of the Risk Scorer for one
user, that user risk history holds 6 entries, exceeding the fixed cap of 5
the claim asserts for all three histories. -/
theorem C9_counterexample : 5 < (riskHistoryAfter 6).length := by decide

/-- Claim C9 (amended): only the recommendation history is capped — after
every update it holds at most 5 entries — while the risk and premium
histories grow by one entry on every invoke without any cap. -/
theorem C9_history_caps_amended :
    (∀ (hist : List PolicyRec) (rec : PolicyRec),
       (updateRecommendationHistory hist rec).length ≤ 5) ∧
    (∀ (hist : List RiskAssessmentResult) (r : RiskAssessmentResult),
       (appendRiskHistory hist r).length = hist.length + 1) ∧
    (∀ (hist : List PremiumResult) (p : PremiumResult),
       (appendPremiumHistory hist p).length = hist.length + 1) := by
  refine ⟨?_, ?_, ?_⟩
  · intro hist rec
    simp only [updateRecommendationHistory]
    by_cases h : (hist ++ [rec]).length > 5
    · rw [if_pos h, List.length_drop]
      omega
    · rw [if_neg h]
      omega
  · intro hist r
    simp [appendRiskHistory]
  · intro hist p
    simp [appendPremiumHistory]

/-- Claim C10: when the model names a policy outside the catalogue, the
correction step changes only the recommended name (to the first catalogue
entry) and overwrites the top-level additional_notes; all other parsed fields
are returned unchanged. -/
theorem C10_correction_frame (pr : PolicyRec)
    (h : isCataloguePolicyName pr.recommended_policy.name = false) :
    (recommend_policy (some pr)).recommended_policy.name =
      policyNameOf (AVAILABLE_POLICIES.headD []) ∧
    (recommend_policy (some pr)).additional_notes = notFoundNote ∧
    frameUnchanged pr (recommend_policy (some pr)) := by
  simp [recommend_policy, h, frameUnchanged]

/-- Witness for C10 at a parsed recommendation with an invented name. -/
theorem C10_correction_frame_witness :
    isCataloguePolicyName inventedRec.recommended_policy.name = false ∧
    ((recommend_policy (some inventedRec)).recommended_policy.name =
       policyNameOf (AVAILABLE_POLICIES.headD []) ∧
     (recommend_policy (some inventedRec)).additional_notes = notFoundNote ∧
     frameUnchanged inventedRec (recommend_policy (some inventedRec))) :=
  ⟨by decide, C10_correction_frame inventedRec (by decide)⟩
